import Mathlib

/-!
Shallow embedding of the affiliate-dashboard codebase (React/TypeScript over a
Supabase backend) and verification of its specification.

JS numbers are modelled as rationals (`ℚ`), so every arithmetic step of the
source is mirrored exactly (the source only adds, multiplies, divides and
compares).  JS `Array.prototype.sort` is a stable sort; it is modelled with
`List.insertionSort`, which is also stable, so both produce the unique stable
ordering of the input for the given comparator.  Fallible JS code (array
indexing that can hit `undefined`) is modelled with `Option`.
-/

/-- A calendar date as carried by a sales row.  The source stores dates as ISO
`YYYY-MM-DD` strings and reads them back through `new Date(...)`; we keep the
three components.  Lexicographic comparison of the components coincides with
the string comparison the source performs on ISO date strings. -/
structure DateStr where
  year : Int
  month : Nat
  day : Nat
deriving DecidableEq

/-- Strict comparison of dates, modelling the string comparison
`data.date < accumulated.date_range.start` on ISO date strings. -/
def dateLt (a b : DateStr) : Bool :=
  a.year < b.year ||
    (a.year == b.year && (a.month < b.month || (a.month == b.month && a.day < b.day)))

/-- One tier of an incentive rule (fields read by the calculations;
`incentive_tiers` rows also carry `id`/`created_at`, which no computation
reads). -/
structure IncentiveTier where
  revenue_threshold : ℚ
  incentive_rate : ℚ
deriving DecidableEq

/-- An incentive rule together with its tiers, as assembled by
`fetchIncentiveRules` (string metadata `id`/`name`/`description` omitted:
no modelled computation reads them). -/
structure IncentiveRule where
  base_revenue_threshold : ℚ
  min_commission_threshold : ℚ
  commission_rate_min : ℚ
  commission_rate_max : ℚ
  is_active : Bool
  tiers : List IncentiveTier
deriving DecidableEq

/-- The tier comparator `(a, b) => a.revenue_threshold - b.revenue_threshold`
used by both incentive calculations: `a` sorts before `b` when the comparator
is nonpositive. -/
def tierRel (a b : IncentiveTier) : Prop :=
  a.revenue_threshold ≤ b.revenue_threshold

instance : DecidableRel tierRel := fun a b =>
  inferInstanceAs (Decidable (a.revenue_threshold ≤ b.revenue_threshold))

instance : IsTotal IncentiveTier tierRel := ⟨fun a b => le_total a.revenue_threshold b.revenue_threshold⟩

instance : IsTrans IncentiveTier tierRel := ⟨fun _ _ _ => le_trans⟩

/-- The `for (const tier of sortedTiers) { if (revenue >= tier.revenue_threshold)
applicableTier = tier; else break; }` loop of `calculateTieredIncentive` in
`IncentiveOverview.tsx`: walk the sorted tiers, remembering the last tier whose
threshold does not exceed the revenue, stopping at the first that does. -/
def applicableTierLoop (revenue : ℚ) : IncentiveTier → List IncentiveTier → IncentiveTier
  | acc, [] => acc
  | acc, t :: ts =>
    if t.revenue_threshold ≤ revenue then applicableTierLoop revenue t ts else acc

/-- `calculateTieredIncentive` from `IncentiveOverview.tsx` (lines 67-87), the
flat-lookup variant: below `base_revenue_threshold` the incentive is `0`;
otherwise the tiers are sorted ascending by `revenue_threshold`, the applicable
tier is found by `applicableTierLoop` started from `sortedTiers[0]`, and the
incentive is `revenue * rate / 100`.  When the tier list is empty the source
reads `sortedTiers[0].incentive_rate` off `undefined` and throws; that branch
is `none`. -/
def calculateTieredIncentive (revenue : ℚ) (rule : IncentiveRule) : Option ℚ :=
  if revenue < rule.base_revenue_threshold then some 0
  else
    match List.insertionSort tierRel rule.tiers with
    | [] => none
    | t0 :: rest =>
      let applicableTier := applicableTierLoop revenue t0 (t0 :: rest)
      some (revenue * applicableTier.incentive_rate / 100)

/-- The commission-rate category argument of the second
`calculateTieredIncentive` (in the second document of `FileManagement.tsx`). -/
inductive CommissionCategory
  | standard
  | high
deriving DecidableEq

/-- The marginal per-band loop of the second `calculateTieredIncentive`
(`FileManagement.tsx` second document, lines 889-910): for each sorted tier,
if the revenue strictly exceeds the tier threshold, the band up to the next
threshold (or all remaining revenue for the last tier, `Infinity` in the
source) earns that tier rate (times `1.2` for the `high` category), and the
band amount is subtracted from the remaining revenue; the loop stops once no
revenue remains. -/
def marginalTierLoop (revenue : ℚ) (category : CommissionCategory) :
    ℚ → List IncentiveTier → ℚ
  | _, [] => 0
  | remaining, t :: ts =>
    if remaining ≤ 0 then 0
    else if t.revenue_threshold < revenue then
      let applicableRevenue :=
        match ts with
        | [] => remaining
        | next :: _ => min remaining (next.revenue_threshold - t.revenue_threshold)
      let rate :=
        match category with
        | CommissionCategory.high => t.incentive_rate * (6 / 5)
        | CommissionCategory.standard => t.incentive_rate
      applicableRevenue * rate / 100 +
        marginalTierLoop revenue category (remaining - applicableRevenue) ts
    else marginalTierLoop revenue category remaining ts

/-- `calculateTieredIncentive` from the second document of
`FileManagement.tsx` (lines 880-913), the marginal per-band variant. -/
def calculateTieredIncentiveMarginal (revenue : ℚ) (rule : IncentiveRule)
    (category : CommissionCategory) : ℚ :=
  if revenue < rule.base_revenue_threshold then 0
  else marginalTierLoop revenue category revenue (List.insertionSort tierRel rule.tiers)

/-! ### Role-based visibility filtering -/

/-- The role union type of the current user (`"user" | "superadmin"`). -/
inductive Role
  | user
  | superadmin
deriving DecidableEq

/-- An affiliate account (fields read by the modelled computations; string
metadata such as `username`, `email`, `account_code`, `phone`, `status` and
`category_id` feed only the rendering and search paths, which are out of
scope). -/
structure Account where
  id : String
  user_id : Option String
deriving DecidableEq

/-- A staff user (fields read by the modelled computations). -/
structure User where
  id : String
  name : String
  role : Role
  managed_accounts : List String
deriving DecidableEq

/-- One sales/commission row of the `sales_data` table. -/
structure SalesData where
  account_id : String
  date : DateStr
  clicks : ℚ
  orders : ℚ
  gross_commission : ℚ
  total_purchases : ℚ
  products_sold : ℚ
  new_buyers : ℚ
deriving DecidableEq

/-- `filteredAccountsByRole` (Reports component, also duplicated verbatim in
`AccountManagement.tsx` lines 51-62): no current user sees nothing, a
superadmin sees every account, any other user sees exactly the accounts whose
id appears in `managed_accounts`. -/
def filteredAccountsByRole (accounts : List Account) (currentUser : Option User) :
    List Account :=
  match currentUser with
  | none => []
  | some u =>
    if u.role = Role.superadmin then accounts
    else accounts.filter (fun account => u.managed_accounts.contains account.id)

/-- `filteredSalesDataByUser` (Reports component): the same role rule applied
to sales rows keyed by `account_id`. -/
def filteredSalesDataByUser (salesData : List SalesData) (currentUser : Option User) :
    List SalesData :=
  match currentUser with
  | none => []
  | some u =>
    if u.role = Role.superadmin then salesData
    else salesData.filter (fun data => u.managed_accounts.contains data.account_id)

/-! ### Monthly incentive overview -/

/-- `incentiveRules.find(rule => rule.is_active) || null`. -/
def activeRule (incentiveRules : List IncentiveRule) : Option IncentiveRule :=
  incentiveRules.find? (fun rule => rule.is_active)

/-- Models `Number(x.toFixed(4))`: rounding to four decimal places. -/
def toFixed4 (q : ℚ) : ℚ := (round (q * 10000) : ℤ) / 10000

/-- The month filter inside `userAccountsOverview`
(`IncentiveOverview.tsx` lines 103-108): the sales rows of one account whose
date falls in the selected month and year. -/
def accountMonthSales (salesData : List SalesData) (accountId : String)
    (selectedMonth : Nat) (selectedYear : Int) : List SalesData :=
  salesData.filter (fun sale =>
    sale.account_id == accountId && sale.date.month == selectedMonth &&
      sale.date.year == selectedYear)

/-- The body of the `userAccounts.forEach` accumulation of
`userAccountsOverview` (`IncentiveOverview.tsx` lines 101-119), acting on the
`(totalRevenue, totalCommission, qualifyingAccountsCount)` accumulator: an
account contributes exactly when its summed `gross_commission` for the month
reaches `min_commission_threshold`. -/
def overviewStep (salesData : List SalesData) (rule : IncentiveRule)
    (selectedMonth : Nat) (selectedYear : Int) (acc : ℚ × ℚ × Nat)
    (account : Account) : ℚ × ℚ × Nat :=
  let accountSales := accountMonthSales salesData account.id selectedMonth selectedYear
  let accountCommission := (accountSales.map SalesData.gross_commission).sum
  if rule.min_commission_threshold ≤ accountCommission then
    (acc.1 + (accountSales.map SalesData.total_purchases).sum,
      acc.2.1 + accountCommission, acc.2.2 + 1)
  else acc

/-- One row of the per-user overview table. -/
structure UserOverviewRow where
  user_id : String
  user_name : String
  total_accounts : Nat
  qualifying_accounts : Nat
  total_revenue : ℚ
  total_commission : ℚ
  avg_commission_rate : ℚ
deriving DecidableEq

/-- The overview sort comparator `(a, b) => b.total_revenue - a.total_revenue`
(descending by revenue). -/
def overviewRel (a b : UserOverviewRow) : Prop :=
  b.total_revenue ≤ a.total_revenue

instance : DecidableRel overviewRel := fun a b =>
  inferInstanceAs (Decidable (b.total_revenue ≤ a.total_revenue))

instance : IsTotal UserOverviewRow overviewRel :=
  ⟨fun a b => le_total b.total_revenue a.total_revenue⟩

instance : IsTrans UserOverviewRow overviewRel :=
  ⟨fun _ _ _ hab hbc => le_trans hbc hab⟩

/-- The per-user row built by `userAccountsOverview`
(`IncentiveOverview.tsx` lines 93-132). -/
def userOverviewRow (accounts : List Account) (salesData : List SalesData)
    (rule : IncentiveRule) (selectedMonth : Nat) (selectedYear : Int)
    (user : User) : UserOverviewRow :=
  let userAccounts := accounts.filter (fun acc => acc.user_id == some user.id)
  let totals :=
    userAccounts.foldl (overviewStep salesData rule selectedMonth selectedYear) (0, 0, 0)
  { user_id := user.id
    user_name := user.name
    total_accounts := userAccounts.length
    qualifying_accounts := totals.2.2
    total_revenue := totals.1
    total_commission := totals.2.1
    avg_commission_rate :=
      if 0 < totals.1 then toFixed4 (totals.2.1 / totals.1 * 100) else 0 }

/-- `userAccountsOverview` (`IncentiveOverview.tsx` lines 90-134): one row per
user, sorted descending by total revenue; empty when no rule is active. -/
def userAccountsOverview (users : List User) (accounts : List Account)
    (salesData : List SalesData) (incentiveRules : List IncentiveRule)
    (selectedMonth : Nat) (selectedYear : Int) : List UserOverviewRow :=
  match activeRule incentiveRules with
  | none => []
  | some rule =>
    List.insertionSort overviewRel
      (users.map (userOverviewRow accounts salesData rule selectedMonth selectedYear))

/-! ### Reports: metrics, accumulation, CSV export -/

/-- The summary metrics of the Reports component (part of the retrieved
sources, lines 123-141): plain sums over the filtered rows, with both derived
rates guarded to `0` on a zero denominator. -/
structure ReportMetrics where
  totalCommission : ℚ
  totalRevenue : ℚ
  totalOrders : ℚ
  totalClicks : ℚ
  totalProductsSold : ℚ
  totalNewBuyers : ℚ
  avgCommissionRate : ℚ
  conversionRate : ℚ
deriving DecidableEq

def reportMetrics (filteredData : List SalesData) : ReportMetrics :=
  let totalCommission := (filteredData.map SalesData.gross_commission).sum
  let totalRevenue := (filteredData.map SalesData.total_purchases).sum
  let totalOrders := (filteredData.map SalesData.orders).sum
  let totalClicks := (filteredData.map SalesData.clicks).sum
  let totalProductsSold := (filteredData.map SalesData.products_sold).sum
  let totalNewBuyers := (filteredData.map SalesData.new_buyers).sum
  { totalCommission := totalCommission
    totalRevenue := totalRevenue
    totalOrders := totalOrders
    totalClicks := totalClicks
    totalProductsSold := totalProductsSold
    totalNewBuyers := totalNewBuyers
    avgCommissionRate := if 0 < totalRevenue then totalCommission / totalRevenue * 100 else 0
    conversionRate := if 0 < totalClicks then totalOrders / totalClicks * 100 else 0 }

/-- One per-account group of `accumulatedData` (Reports component, lines
144-182). -/
structure AccGroup where
  account_id : String
  clicks : ℚ
  orders : ℚ
  gross_commission : ℚ
  products_sold : ℚ
  total_purchases : ℚ
  new_buyers : ℚ
  data_count : Nat
  range_start : DateStr
  range_end : DateStr
deriving DecidableEq

/-- Folding one sales row into the group of its account: the accumulation
body of `filteredData.forEach` in `accumulatedData` (lines 162-177). -/
def accAdd (g : AccGroup) (d : SalesData) : AccGroup :=
  { g with
    clicks := g.clicks + d.clicks
    orders := g.orders + d.orders
    gross_commission := g.gross_commission + d.gross_commission
    products_sold := g.products_sold + d.products_sold
    total_purchases := g.total_purchases + d.total_purchases
    new_buyers := g.new_buyers + d.new_buyers
    data_count := g.data_count + 1
    range_start := if dateLt d.date g.range_start then d.date else g.range_start
    range_end := if dateLt g.range_end d.date then d.date else g.range_end }

/-- One step of the `Map`-based accumulation (lines 147-178): a first-seen
account gets a fresh zero group keyed at the end of the map (JS `Map`
preserves insertion order), then the row is folded in. -/
def accStep (m : List AccGroup) (d : SalesData) : List AccGroup :=
  if m.any (fun g => g.account_id == d.account_id) then
    m.map (fun g => if g.account_id == d.account_id then accAdd g d else g)
  else
    m ++ [accAdd ⟨d.account_id, 0, 0, 0, 0, 0, 0, 0, d.date, d.date⟩ d]

/-- The accumulation sort comparator `(a, b) => b.gross_commission -
a.gross_commission` (descending by commission). -/
def accRel (a b : AccGroup) : Prop :=
  b.gross_commission ≤ a.gross_commission

instance : DecidableRel accRel := fun a b =>
  inferInstanceAs (Decidable (b.gross_commission ≤ a.gross_commission))

instance : IsTotal AccGroup accRel := ⟨fun a b => le_total b.gross_commission a.gross_commission⟩

instance : IsTrans AccGroup accRel := ⟨fun _ _ _ hab hbc => le_trans hbc hab⟩

/-- `accumulatedData` (Reports component, lines 144-182): accumulate the
filtered rows per account, then sort descending by commission. -/
def accumulatedData (filteredData : List SalesData) : List AccGroup :=
  List.insertionSort accRel (filteredData.foldl accStep [])

/-- The numeric cells of one row as displayed by the accumulated-data table
(Reports component, lines 462-511); the two percentages are guarded to `0`
on a zero denominator. -/
structure DisplayRow where
  data_count : Nat
  clicks : ℚ
  orders : ℚ
  gross_commission : ℚ
  total_purchases : ℚ
  products_sold : ℚ
  commissionRate : ℚ
  convRate : ℚ
deriving DecidableEq

def tableRow (g : AccGroup) : DisplayRow :=
  { data_count := g.data_count
    clicks := g.clicks
    orders := g.orders
    gross_commission := g.gross_commission
    total_purchases := g.total_purchases
    products_sold := g.products_sold
    commissionRate :=
      if 0 < g.total_purchases then g.gross_commission / g.total_purchases * 100 else 0
    convRate := if 0 < g.clicks then g.orders / g.clicks * 100 else 0 }

/-- The numeric fields of one CSV row built by `exportToCSV` (Reports
component, lines 208-228); the string columns (account name, account code and
formatted period) delegate to lookup and locale formatting, outside the
numeric scope of the export. -/
def csvRow (g : AccGroup) : DisplayRow :=
  { data_count := g.data_count
    clicks := g.clicks
    orders := g.orders
    gross_commission := g.gross_commission
    total_purchases := g.total_purchases
    products_sold := g.products_sold
    commissionRate :=
      if 0 < g.total_purchases then g.gross_commission / g.total_purchases * 100 else 0
    convRate := if 0 < g.clicks then g.orders / g.clicks * 100 else 0 }

def tableRows (filteredData : List SalesData) : List DisplayRow :=
  (accumulatedData filteredData).map tableRow

/-- `exportToCSV` (lines 192-241): one row per group of `accumulatedData`,
in order. -/
def exportToCSVRows (filteredData : List SalesData) : List DisplayRow :=
  (accumulatedData filteredData).map csvRow

/-! ### File sorting -/

/-- A reference document row (fields read by `sortedFiles`; `updated_at` is
the epoch-milliseconds value `new Date(file.updated_at).getTime()` of the
timestamp string). -/
structure FileData where
  id : String
  is_pinned : Bool
  updated_at : Int
deriving DecidableEq

/-- The comparator of `sortedFiles` (`FileManagement.tsx` lines 115-124):
pinned files first, then newest first; `a` sorts before `b` when the
comparator value is nonpositive. -/
def fileLE (a b : FileData) : Bool :=
  if a.is_pinned && !b.is_pinned then true
  else if !a.is_pinned && b.is_pinned then false
  else decide (b.updated_at ≤ a.updated_at)

def fileRel (a b : FileData) : Prop := fileLE a b = true

instance : DecidableRel fileRel := fun a b => inferInstanceAs (Decidable (fileLE a b = true))

instance : IsTotal FileData fileRel := by
  constructor
  intro a b
  cases ha : a.is_pinned <;> cases hb : b.is_pinned <;>
    simp [fileRel, fileLE, ha, hb] <;> omega

instance : IsTrans FileData fileRel := by
  constructor
  intro a b c hab hbc
  cases ha : a.is_pinned <;> cases hb : b.is_pinned <;> cases hc : c.is_pinned <;>
    simp [fileRel, fileLE, ha, hb, hc] at hab hbc ⊢ <;> omega

/-- `sortedFiles` (`FileManagement.tsx` lines 115-124), applied to the
filtered file list. -/
def sortedFiles (filteredFiles : List FileData) : List FileData :=
  List.insertionSort fileRel filteredFiles

/-! ### The useSupabase hook: error handling of the data operations

Each operation is modelled as a pure function from the backend response(s) it
awaits to the pair (returned value, error state set by `setError`).  A
response carries the nullable `data` and the nullable `error` that the source
destructures; `if (error) throw error` followed by the `catch` block is the
`some` branch of the match on `error`. -/

/-- A thrown backend error: the source shows `err.message` when the thrown
value is an `Error` instance and a per-operation fallback string otherwise. -/
structure JsError where
  isError : Bool
  message : String
deriving DecidableEq

/-- `err instanceof Error ? err.message : fallback`. -/
def jsErrorMessage (e : JsError) (fallback : String) : String :=
  if e.isError then e.message else fallback

/-- A supabase response as destructured by the hook:
`const { data, error } = await ...`. -/
structure SupaResp (α : Type) where
  data : Option α
  error : Option JsError

/-- A category row (fields used by the modelled code). -/
structure Category where
  id : String
  name : String
deriving DecidableEq

/-- An `incentive_rules` table row (without its tiers). -/
structure RuleRow where
  id : String
  base_revenue_threshold : ℚ
  min_commission_threshold : ℚ
  commission_rate_min : ℚ
  commission_rate_max : ℚ
  is_active : Bool
deriving DecidableEq

/-- An `incentive_tiers` table row. -/
structure TierRow where
  rule_id : String
  revenue_threshold : ℚ
  incentive_rate : ℚ
deriving DecidableEq

/-- Reassembling a rule object from its row and tier rows (the `map` bodies
of `fetchIncentiveRules` and the tier-returning branches of
`addIncentiveRule`/`updateIncentiveRule`). -/
def rowToRule (rd : RuleRow) (ts : List TierRow) : IncentiveRule :=
  { base_revenue_threshold := rd.base_revenue_threshold
    min_commission_threshold := rd.min_commission_threshold
    commission_rate_min := rd.commission_rate_min
    commission_rate_max := rd.commission_rate_max
    is_active := rd.is_active
    tiers := ts.map (fun t => ⟨t.revenue_threshold, t.incentive_rate⟩) }

def fetchCategories (r : SupaResp (List Category)) : List Category × Option String :=
  match r.error with
  | some e => ([], some (jsErrorMessage e "Failed to fetch categories"))
  | none => (r.data.getD [], none)

def addCategory (r : SupaResp Category) : Option Category × Option String :=
  match r.error with
  | some e => (none, some (jsErrorMessage e "Failed to add category"))
  | none => (r.data, none)

def updateCategory (r : SupaResp Category) : Option Category × Option String :=
  match r.error with
  | some e => (none, some (jsErrorMessage e "Failed to update category"))
  | none => (r.data, none)

def deleteCategory (e : Option JsError) : Bool × Option String :=
  match e with
  | some e => (false, some (jsErrorMessage e "Failed to delete category"))
  | none => (true, none)

def fetchAccounts (r : SupaResp (List Account)) : List Account × Option String :=
  match r.error with
  | some e => ([], some (jsErrorMessage e "Failed to fetch accounts"))
  | none => (r.data.getD [], none)

/-- `addAccount`: the value and error state depend only on the insert
response.  The auto-assign block that follows a successful insert only issues
further writes inside its own `try`; its failures are logged with
`console.warn` and change neither the returned account nor the error
state. -/
def addAccount (r : SupaResp Account) : Option Account × Option String :=
  match r.error with
  | some e => (none, some (jsErrorMessage e "Failed to add account"))
  | none => (r.data, none)

def updateAccount (r : SupaResp Account) : Option Account × Option String :=
  match r.error with
  | some e => (none, some (jsErrorMessage e "Failed to update account"))
  | none => (r.data, none)

def deleteAccount (e : Option JsError) : Bool × Option String :=
  match e with
  | some e => (false, some (jsErrorMessage e "Failed to delete account"))
  | none => (true, none)

def fetchSalesData (r : SupaResp (List SalesData)) : List SalesData × Option String :=
  match r.error with
  | some e => ([], some (jsErrorMessage e "Failed to fetch sales data"))
  | none => (r.data.getD [], none)

def addSalesData (r : SupaResp (List SalesData)) : List SalesData × Option String :=
  match r.error with
  | some e => ([], some (jsErrorMessage e "Failed to add sales data"))
  | none => (r.data.getD [], none)

def deleteSalesData (e : Option JsError) : Bool × Option String :=
  match e with
  | some e => (false, some (jsErrorMessage e "Failed to delete sales data"))
  | none => (true, none)

def fetchUsers (r : SupaResp (List User)) : List User × Option String :=
  match r.error with
  | some e => ([], some (jsErrorMessage e "Failed to fetch users"))
  | none => (r.data.getD [], none)

def addUser (r : SupaResp User) : Option User × Option String :=
  match r.error with
  | some e => (none, some (jsErrorMessage e "Failed to add user"))
  | none => (r.data, none)

def updateUser (r : SupaResp User) : Option User × Option String :=
  match r.error with
  | some e => (none, some (jsErrorMessage e "Failed to update user"))
  | none => (r.data, none)

def deleteUser (e : Option JsError) : Bool × Option String :=
  match e with
  | some e => (false, some (jsErrorMessage e "Failed to delete user"))
  | none => (true, none)

/-- `fetchIncentiveRules` awaits a rules query and a tiers query; an error in
either yields the empty list and the message; otherwise rules are combined
with their tiers by `rule_id`. -/
def fetchIncentiveRules (rulesResp : SupaResp (List RuleRow))
    (tiersResp : SupaResp (List TierRow)) : List IncentiveRule × Option String :=
  match rulesResp.error with
  | some e => ([], some (jsErrorMessage e "Failed to fetch incentive rules"))
  | none =>
    match tiersResp.error with
    | some e => ([], some (jsErrorMessage e "Failed to fetch incentive rules"))
    | none =>
      ((rulesResp.data.getD []).map (fun rule =>
        rowToRule rule ((tiersResp.data.getD []).filter (fun t => t.rule_id == rule.id))),
        none)

/-- `addIncentiveRule`: insert the rule row, then (when the payload has
tiers) insert the tier rows.  A null `data` from the successful rule insert
makes the source read `ruleData.id` off `null`, throwing a `TypeError` whose
message is still surfaced through the same catch; the degenerate
null-row/no-tiers success (`{ ...null, tiers: [] }`) is collapsed to
`none`. -/
def addIncentiveRule (ruleTiers : List IncentiveTier) (ruleResp : SupaResp RuleRow)
    (tiersResp : SupaResp (List TierRow)) : Option IncentiveRule × Option String :=
  match ruleResp.error with
  | some e => (none, some (jsErrorMessage e "Failed to add incentive rule"))
  | none =>
    if ruleTiers.length > 0 then
      match ruleResp.data with
      | none => (none, some "Cannot read properties of null")
      | some ruleData =>
        match tiersResp.error with
        | some e => (none, some (jsErrorMessage e "Failed to add incentive rule"))
        | none => (some (rowToRule ruleData (tiersResp.data.getD [])), none)
    else (ruleResp.data.map (fun rd => rowToRule rd []), none)

def deleteIncentiveRule (e : Option JsError) : Bool × Option String :=
  match e with
  | some e => (false, some (jsErrorMessage e "Failed to delete incentive rule"))
  | none => (true, none)

def updateProfile (r : SupaResp User) : Option User × Option String :=
  match r.error with
  | some e => (none, some (jsErrorMessage e "Failed to update profile"))
  | none => (r.data, none)

def fetchFiles (r : SupaResp (List FileData)) : List FileData × Option String :=
  match r.error with
  | some e => ([], some (jsErrorMessage e "Failed to fetch files"))
  | none => (r.data.getD [], none)

def addFile (r : SupaResp FileData) : Option FileData × Option String :=
  match r.error with
  | some e => (none, some (jsErrorMessage e "Failed to add file"))
  | none => (r.data, none)

def updateFile (r : SupaResp FileData) : Option FileData × Option String :=
  match r.error with
  | some e => (none, some (jsErrorMessage e "Failed to update file"))
  | none => (r.data, none)

def deleteFile (e : Option JsError) : Bool × Option String :=
  match e with
  | some e => (false, some (jsErrorMessage e "Failed to delete file"))
  | none => (true, none)

/-! ### updateIncentiveRule as a transition on the stored rows -/

/-- The backend rows touched by `updateIncentiveRule`: the `incentive_rules`
table and the `incentive_tiers` table. -/
structure IncentiveStore where
  rules : List RuleRow
  tiers : List TierRow
deriving DecidableEq

/-- The update payload (the fields the source writes; `tiers` is optional:
`if (updates.tiers)`). -/
structure RuleUpdatePayload where
  base_revenue_threshold : ℚ
  min_commission_threshold : ℚ
  commission_rate_min : ℚ
  commission_rate_max : ℚ
  is_active : Bool
  tiers : Option (List IncentiveTier)
deriving DecidableEq

/-- Which of the four backend calls of `updateIncentiveRule` fail
(`none` = the call succeeds). -/
structure UpdateScript where
  ruleErr : Option JsError
  deleteErr : Option JsError
  insertErr : Option JsError
  fetchTiersErr : Option JsError
deriving DecidableEq

/-- Applying the rule-update payload to a rule row. -/
def applyPayload (p : RuleUpdatePayload) (r : RuleRow) : RuleRow :=
  { r with
    base_revenue_threshold := p.base_revenue_threshold
    min_commission_threshold := p.min_commission_threshold
    commission_rate_min := p.commission_rate_min
    commission_rate_max := p.commission_rate_max
    is_active := p.is_active }

/-- The backend `order by revenue_threshold` on tier rows. -/
def tierRowRel (a b : TierRow) : Prop :=
  a.revenue_threshold ≤ b.revenue_threshold

instance : DecidableRel tierRowRel := fun a b =>
  inferInstanceAs (Decidable (a.revenue_threshold ≤ b.revenue_threshold))

instance : IsTotal TierRow tierRowRel :=
  ⟨fun a b => le_total a.revenue_threshold b.revenue_threshold⟩

instance : IsTrans TierRow tierRowRel := ⟨fun _ _ _ => le_trans⟩

/-- The fall-through tail of `updateIncentiveRule` (part_002 lines 546-561):
fetch the tier rows of the rule (a failed fetch is silently discarded, leaving
`tiersData` null, hence `[]`) and return the rule with them.  A null updated
row would make the source return a malformed spread object; it is collapsed
to `none` here. -/
def updateRuleFetchTiers (store : IncentiveStore) (id : String)
    (ruleData : Option RuleRow) (s : UpdateScript) :
    IncentiveStore × Option IncentiveRule × Option String :=
  let tiersData :=
    match s.fetchTiersErr with
    | some _ => ([] : List TierRow)
    | none => List.insertionSort tierRowRel (store.tiers.filter (fun t => t.rule_id == id))
  (store, ruleData.map (fun rd => rowToRule rd tiersData), none)

/-- `updateIncentiveRule` (part_002 lines 488-568) as a transition on the
stored rows: update the rule row; if the payload carries tiers, delete the
existing tier rows (the delete result is not even destructured, so a delete
failure is silently ignored) and insert the new ones; a throw at any await
is caught, sets the error message and returns `null` — without undoing the
earlier writes. -/
def updateIncentiveRule (store : IncentiveStore) (id : String)
    (updates : RuleUpdatePayload) (s : UpdateScript) :
    IncentiveStore × Option IncentiveRule × Option String :=
  match s.ruleErr with
  | some e => (store, none, some (jsErrorMessage e "Failed to update incentive rule"))
  | none =>
    let rules1 := store.rules.map (fun r => if r.id == id then applyPayload updates r else r)
    let store1 : IncentiveStore := { store with rules := rules1 }
    let ruleData : Option RuleRow := rules1.find? (fun r => r.id == id)
    match updates.tiers with
    | some newTiers =>
      let store2 : IncentiveStore :=
        match s.deleteErr with
        | some _ => store1
        | none => { store1 with tiers := store1.tiers.filter (fun t => !(t.rule_id == id)) }
      if newTiers.length > 0 then
        match s.insertErr with
        | some e => (store2, none, some (jsErrorMessage e "Failed to update incentive rule"))
        | none =>
          let inserted := newTiers.map (fun t => TierRow.mk id t.revenue_threshold t.incentive_rate)
          ({ store2 with tiers := store2.tiers ++ inserted },
            ruleData.map (fun rd => rowToRule rd inserted), none)
      else updateRuleFetchTiers store2 id ruleData s
    | none => updateRuleFetchTiers store1 id ruleData s

/-! ### Theorems -/

/-! ### Behaviour of the applicable-tier loop -/

theorem applicableTierLoop_mem (revenue : ℚ) :
    ∀ (l : List IncentiveTier) (acc : IncentiveTier),
      applicableTierLoop revenue acc l ∈ acc :: l := by
  intro l
  induction l with
  | nil => intro acc; simp [applicableTierLoop]
  | cons t ts ih =>
    intro acc
    simp only [applicableTierLoop]
    split
    · exact List.mem_cons_of_mem acc (ih t)
    · exact List.mem_cons_self acc (t :: ts)

theorem applicableTierLoop_le (revenue : ℚ) :
    ∀ (l : List IncentiveTier) (acc : IncentiveTier),
      acc.revenue_threshold ≤ revenue →
      (∀ u ∈ l, tierRel acc u) →
      l.Pairwise tierRel →
      (applicableTierLoop revenue acc l).revenue_threshold ≤ revenue ∧
      acc.revenue_threshold ≤ (applicableTierLoop revenue acc l).revenue_threshold ∧
      ∀ u ∈ l, u.revenue_threshold ≤ revenue →
        u.revenue_threshold ≤ (applicableTierLoop revenue acc l).revenue_threshold := by
  intro l
  induction l with
  | nil =>
    intro acc hacc _ _
    exact ⟨hacc, le_refl _, by simp⟩
  | cons t ts ih =>
    intro acc hacc hall hpair
    simp only [applicableTierLoop]
    rcases List.pairwise_cons.mp hpair with ⟨htts, hpts⟩
    split
    · rename_i ht
      obtain ⟨h1, h2, h3⟩ := ih t ht htts hpts
      refine ⟨h1, le_trans (hall t (List.mem_cons_self t ts)) h2, ?_⟩
      intro u hu hule
      rcases List.mem_cons.mp hu with rfl | hu
      · exact h2
      · exact h3 u hu hule
    · rename_i ht
      refine ⟨hacc, le_refl _, ?_⟩
      intro u hu hule
      rcases List.mem_cons.mp hu with rfl | hu
      · exact absurd hule ht
      · exact absurd (le_trans (htts u hu) hule) ht

theorem applicableTierLoop_stop (revenue : ℚ) (acc : IncentiveTier)
    (l : List IncentiveTier) (h : ∀ u ∈ l, revenue < u.revenue_threshold) :
    applicableTierLoop revenue acc l = acc := by
  cases l with
  | nil => rfl
  | cons t ts =>
    have ht := h t (List.mem_cons_self t ts)
    simp [applicableTierLoop, not_le.mpr ht]

/-- C1: the incentive-tier calculation is a stepwise rate lookup applied to
aggregated revenue.  For every revenue and every rule with a non-empty tier
list, `calculateTieredIncentive` returns `0` below `base_revenue_threshold`,
and otherwise `revenue * incentive_rate / 100` for the applicable tier: the
tier with the greatest `revenue_threshold` not exceeding the revenue,
defaulting to the tier with the smallest `revenue_threshold` when the revenue
is below every threshold. -/
theorem calculateTieredIncentive_spec (revenue : ℚ) (rule : IncentiveRule)
    (hne : rule.tiers ≠ []) :
    (revenue < rule.base_revenue_threshold →
      calculateTieredIncentive revenue rule = some 0) ∧
    (rule.base_revenue_threshold ≤ revenue →
      ∃ t ∈ rule.tiers,
        calculateTieredIncentive revenue rule =
          some (revenue * t.incentive_rate / 100) ∧
        ((∃ u ∈ rule.tiers, u.revenue_threshold ≤ revenue) →
          t.revenue_threshold ≤ revenue ∧
            ∀ u ∈ rule.tiers, u.revenue_threshold ≤ revenue →
              u.revenue_threshold ≤ t.revenue_threshold) ∧
        ((∀ u ∈ rule.tiers, revenue < u.revenue_threshold) →
          ∀ u ∈ rule.tiers, t.revenue_threshold ≤ u.revenue_threshold)) := by
  constructor
  · intro h
    simp [calculateTieredIncentive, h]
  · intro hbase
    have hnotlt : ¬ revenue < rule.base_revenue_threshold := not_lt.mpr hbase
    have hperm := List.perm_insertionSort tierRel rule.tiers
    have hsorted := List.sorted_insertionSort tierRel rule.tiers
    cases hs : List.insertionSort tierRel rule.tiers with
    | nil =>
      rw [hs] at hperm
      exact absurd hperm.symm.eq_nil hne
    | cons t0 rest =>
      rw [hs] at hperm hsorted
      have hmemiff : ∀ x : IncentiveTier, x ∈ t0 :: rest ↔ x ∈ rule.tiers :=
        fun x => hperm.mem_iff
      rcases List.pairwise_cons.mp hsorted with ⟨ht0rest, hprest⟩
      have hall : ∀ u ∈ t0 :: rest, tierRel t0 u := by
        intro u hu
        rcases List.mem_cons.mp hu with rfl | hu
        · exact le_refl _
        · exact ht0rest u hu
      have hcalc : calculateTieredIncentive revenue rule =
          some (revenue * (applicableTierLoop revenue t0 (t0 :: rest)).incentive_rate / 100) := by
        simp only [calculateTieredIncentive, if_neg hnotlt, hs]
      have hTmem : applicableTierLoop revenue t0 (t0 :: rest) ∈ rule.tiers := by
        have h := applicableTierLoop_mem revenue (t0 :: rest) t0
        rcases List.mem_cons.mp h with h | h
        · rw [h]
          exact (hmemiff t0).mp (List.mem_cons_self t0 rest)
        · exact (hmemiff _).mp h
      by_cases hex : ∃ u ∈ rule.tiers, u.revenue_threshold ≤ revenue
      · obtain ⟨u0, hu0mem, hu0le⟩ := hex
        have ht0le : t0.revenue_threshold ≤ revenue :=
          le_trans (hall u0 ((hmemiff u0).mpr hu0mem)) hu0le
        obtain ⟨h1, _, h3⟩ :=
          applicableTierLoop_le revenue (t0 :: rest) t0 ht0le hall hsorted
        refine ⟨applicableTierLoop revenue t0 (t0 :: rest), hTmem, hcalc, ?_, ?_⟩
        · intro _
          exact ⟨h1, fun u hu hule => h3 u ((hmemiff u).mpr hu) hule⟩
        · intro habove
          exact absurd hu0le (not_le.mpr (habove u0 hu0mem))
      · push_neg at hex
        have hstop : applicableTierLoop revenue t0 (t0 :: rest) = t0 :=
          applicableTierLoop_stop revenue t0 (t0 :: rest)
            (fun u hu => hex u ((hmemiff u).mp hu))
        refine ⟨applicableTierLoop revenue t0 (t0 :: rest), hTmem, hcalc, ?_, ?_⟩
        · intro hex2
          obtain ⟨u0, hu0mem, hu0le⟩ := hex2
          exact absurd hu0le (not_le.mpr (hex u0 hu0mem))
        · intro _ u hu
          rw [hstop]
          exact hall u ((hmemiff u).mpr hu)

/-- Witness for C1 at a concrete input: rule with base threshold `500` and
tiers at `1000` (rate `5`) and `2000` (rate `7`), revenue `1500`: the tier at
`1000` applies and the incentive is `1500 * 5 / 100 = 75`. -/
theorem calculateTieredIncentive_spec_witness :
    (([⟨1000, 5⟩, ⟨2000, 7⟩] : List IncentiveTier) ≠ []) ∧
    (((1500 : ℚ) < (500 : ℚ) →
      calculateTieredIncentive 1500 ⟨500, 0, 0, 100, true, [⟨1000, 5⟩, ⟨2000, 7⟩]⟩ = some 0) ∧
    ((500 : ℚ) ≤ (1500 : ℚ) →
      ∃ t ∈ (⟨500, 0, 0, 100, true, [⟨1000, 5⟩, ⟨2000, 7⟩]⟩ : IncentiveRule).tiers,
        calculateTieredIncentive 1500 ⟨500, 0, 0, 100, true, [⟨1000, 5⟩, ⟨2000, 7⟩]⟩ =
          some (1500 * t.incentive_rate / 100) ∧
        ((∃ u ∈ (⟨500, 0, 0, 100, true, [⟨1000, 5⟩, ⟨2000, 7⟩]⟩ : IncentiveRule).tiers,
            u.revenue_threshold ≤ 1500) →
          t.revenue_threshold ≤ 1500 ∧
            ∀ u ∈ (⟨500, 0, 0, 100, true, [⟨1000, 5⟩, ⟨2000, 7⟩]⟩ : IncentiveRule).tiers,
              u.revenue_threshold ≤ 1500 →
                u.revenue_threshold ≤ t.revenue_threshold) ∧
        ((∀ u ∈ (⟨500, 0, 0, 100, true, [⟨1000, 5⟩, ⟨2000, 7⟩]⟩ : IncentiveRule).tiers,
            (1500 : ℚ) < u.revenue_threshold) →
          ∀ u ∈ (⟨500, 0, 0, 100, true, [⟨1000, 5⟩, ⟨2000, 7⟩]⟩ : IncentiveRule).tiers,
            t.revenue_threshold ≤ u.revenue_threshold))) :=
  ⟨by simp, calculateTieredIncentive_spec 1500 ⟨500, 0, 0, 100, true, [⟨1000, 5⟩, ⟨2000, 7⟩]⟩
    (by simp)⟩

/-- C8: `calculateTieredIncentive` is total under the precondition that the
tier list is non-empty: the lookup of the applicable tier never reaches the
out-of-bounds branch (`sortedTiers[0]` on an empty array) and the function
returns a number. -/
theorem calculateTieredIncentive_total (revenue : ℚ) (rule : IncentiveRule)
    (hne : rule.tiers ≠ []) :
    ∃ v : ℚ, calculateTieredIncentive revenue rule = some v := by
  unfold calculateTieredIncentive
  split
  · exact ⟨0, rfl⟩
  · cases hs : List.insertionSort tierRel rule.tiers with
    | nil =>
      have hperm := List.perm_insertionSort tierRel rule.tiers
      rw [hs] at hperm
      exact absurd hperm.symm.eq_nil hne
    | cons t0 rest =>
      exact ⟨_, rfl⟩

/-- Witness for C8: the calculation succeeds on the concrete two-tier rule at
revenue `1500`. -/
theorem calculateTieredIncentive_total_witness :
    (([⟨1000, 5⟩, ⟨2000, 7⟩] : List IncentiveTier) ≠ []) ∧
    ∃ v : ℚ,
      calculateTieredIncentive 1500 ⟨500, 0, 0, 100, true, [⟨1000, 5⟩, ⟨2000, 7⟩]⟩ = some v :=
  ⟨by simp,
    calculateTieredIncentive_total 1500 ⟨500, 0, 0, 100, true, [⟨1000, 5⟩, ⟨2000, 7⟩]⟩ (by simp)⟩

/-- C2 counterexample: on the rule with tiers at `0` (rate `1`) and `1000`
(rate `2`) and revenue `2000`, the flat lookup of `IncentiveOverview.tsx`
yields `2000 * 2 / 100 = 40` while the marginal per-band calculation of the
second document of `FileManagement.tsx` (category `standard`) yields
`1000 * 1 / 100 + 1000 * 2 / 100 = 30`, so the two implementations disagree. -/
theorem calculateTieredIncentive_agree_counterexample :
    calculateTieredIncentive 2000 ⟨0, 0, 0, 100, true, [⟨0, 1⟩, ⟨1000, 2⟩]⟩ = some 40 ∧
    calculateTieredIncentiveMarginal 2000 ⟨0, 0, 0, 100, true, [⟨0, 1⟩, ⟨1000, 2⟩]⟩
      CommissionCategory.standard = 30 ∧
    calculateTieredIncentive 2000 ⟨0, 0, 0, 100, true, [⟨0, 1⟩, ⟨1000, 2⟩]⟩ ≠
      some (calculateTieredIncentiveMarginal 2000 ⟨0, 0, 0, 100, true, [⟨0, 1⟩, ⟨1000, 2⟩]⟩
        CommissionCategory.standard) := by
  refine ⟨?_, ?_, ?_⟩
  · norm_num [calculateTieredIncentive, applicableTierLoop, tierRel]
  · norm_num [calculateTieredIncentiveMarginal, marginalTierLoop, tierRel]
  · norm_num [calculateTieredIncentive, calculateTieredIncentiveMarginal,
      applicableTierLoop, marginalTierLoop, tierRel]

/-- C2 amended: the two implementations of the incentive-tier calculation
agree on single-tier rules: for every rule whose tier list is exactly one
tier, every nonnegative revenue strictly above that tier threshold makes the
flat lookup of `IncentiveOverview.tsx` and the marginal per-band calculation
(category `standard`) return the same amount.  (On multi-tier rules they
disagree, see the counterexample.) -/
theorem calculateTieredIncentive_agree_single_tier (revenue : ℚ)
    (rule : IncentiveRule) (t : IncentiveTier) (hsingle : rule.tiers = [t])
    (hnonneg : 0 ≤ revenue) (hover : t.revenue_threshold < revenue) :
    calculateTieredIncentive revenue rule =
      some (calculateTieredIncentiveMarginal revenue rule CommissionCategory.standard) := by
  by_cases hb : revenue < rule.base_revenue_threshold
  · simp [calculateTieredIncentive, calculateTieredIncentiveMarginal, hb]
  · rcases eq_or_lt_of_le hnonneg with hz | hpos
    · simp [calculateTieredIncentive, calculateTieredIncentiveMarginal, hb, hsingle,
        applicableTierLoop, marginalTierLoop, ← hz]
    · simp [calculateTieredIncentive, calculateTieredIncentiveMarginal, hb, hsingle,
        applicableTierLoop, marginalTierLoop, hover, not_le.mpr hpos]

/-- Witness for the amended C2 at a concrete input: the single-tier rule with
threshold `100`, rate `5`, at revenue `200`. -/
theorem calculateTieredIncentive_agree_single_tier_witness :
    ((⟨0, 0, 0, 100, true, [⟨100, 5⟩]⟩ : IncentiveRule).tiers = [⟨100, 5⟩]) ∧
    ((0 : ℚ) ≤ 200) ∧ ((100 : ℚ) < 200) ∧
    calculateTieredIncentive 200 ⟨0, 0, 0, 100, true, [⟨100, 5⟩]⟩ =
      some (calculateTieredIncentiveMarginal 200 ⟨0, 0, 0, 100, true, [⟨100, 5⟩]⟩
        CommissionCategory.standard) :=
  ⟨rfl, by norm_num, by norm_num,
    calculateTieredIncentive_agree_single_tier 200 ⟨0, 0, 0, 100, true, [⟨100, 5⟩]⟩
      ⟨100, 5⟩ rfl (by norm_num) (by norm_num)⟩

/-- C3: role-based account-visibility filtering.  `filteredAccountsByRole` is
the whole list for a superadmin, exactly the managed accounts for any other
role, and empty with no current user; `filteredSalesDataByUser` applies the
same rule to sales rows keyed by `account_id`. -/
theorem filteredAccountsByRole_spec (accounts : List Account)
    (salesData : List SalesData) (u : User) :
    (filteredAccountsByRole accounts none = []) ∧
    (u.role = Role.superadmin → filteredAccountsByRole accounts (some u) = accounts) ∧
    (u.role ≠ Role.superadmin →
      ∀ a : Account, a ∈ filteredAccountsByRole accounts (some u) ↔
        a ∈ accounts ∧ a.id ∈ u.managed_accounts) ∧
    (filteredSalesDataByUser salesData none = []) ∧
    (u.role = Role.superadmin → filteredSalesDataByUser salesData (some u) = salesData) ∧
    (u.role ≠ Role.superadmin →
      ∀ s : SalesData, s ∈ filteredSalesDataByUser salesData (some u) ↔
        s ∈ salesData ∧ s.account_id ∈ u.managed_accounts) := by
  refine ⟨rfl, ?_, ?_, rfl, ?_, ?_⟩
  · intro h
    simp [filteredAccountsByRole, h]
  · intro h a
    simp [filteredAccountsByRole, h, List.mem_filter, List.contains_iff_exists_mem_beq]
  · intro h
    simp [filteredSalesDataByUser, h]
  · intro h s
    simp [filteredSalesDataByUser, h, List.mem_filter, List.contains_iff_exists_mem_beq]

/-- Witness for C3 at a concrete input: a non-superadmin managing `"a1"` sees
only account `"a1"` out of `["a1", "a2"]`. -/
theorem filteredAccountsByRole_spec_witness :
    (filteredAccountsByRole [⟨"a1", some "u1"⟩, ⟨"a2", none⟩] none = []) ∧
    ((⟨"u1", "N", Role.user, ["a1"]⟩ : User).role = Role.superadmin →
      filteredAccountsByRole [⟨"a1", some "u1"⟩, ⟨"a2", none⟩]
        (some ⟨"u1", "N", Role.user, ["a1"]⟩) = [⟨"a1", some "u1"⟩, ⟨"a2", none⟩]) ∧
    ((⟨"u1", "N", Role.user, ["a1"]⟩ : User).role ≠ Role.superadmin →
      ∀ a : Account, a ∈ filteredAccountsByRole [⟨"a1", some "u1"⟩, ⟨"a2", none⟩]
          (some ⟨"u1", "N", Role.user, ["a1"]⟩) ↔
        a ∈ [⟨"a1", some "u1"⟩, ⟨"a2", none⟩] ∧
          a.id ∈ (⟨"u1", "N", Role.user, ["a1"]⟩ : User).managed_accounts) ∧
    (filteredSalesDataByUser [] none = []) ∧
    ((⟨"u1", "N", Role.user, ["a1"]⟩ : User).role = Role.superadmin →
      filteredSalesDataByUser [] (some ⟨"u1", "N", Role.user, ["a1"]⟩) = []) ∧
    ((⟨"u1", "N", Role.user, ["a1"]⟩ : User).role ≠ Role.superadmin →
      ∀ s : SalesData, s ∈ filteredSalesDataByUser [] (some ⟨"u1", "N", Role.user, ["a1"]⟩) ↔
        s ∈ ([] : List SalesData) ∧
          s.account_id ∈ (⟨"u1", "N", Role.user, ["a1"]⟩ : User).managed_accounts) :=
  filteredAccountsByRole_spec [⟨"a1", some "u1"⟩, ⟨"a2", none⟩] []
    ⟨"u1", "N", Role.user, ["a1"]⟩

/-- The accumulation loop equals a filter-map-sum over the qualifying
accounts. -/
theorem overviewStep_foldl (salesData : List SalesData) (rule : IncentiveRule)
    (m : Nat) (y : Int) :
    ∀ (l : List Account) (init : ℚ × ℚ × Nat),
      l.foldl (overviewStep salesData rule m y) init =
        (init.1 + ((l.filter (fun a =>
            decide (rule.min_commission_threshold ≤
              ((accountMonthSales salesData a.id m y).map SalesData.gross_commission).sum))).map
            (fun a => ((accountMonthSales salesData a.id m y).map
              SalesData.total_purchases).sum)).sum,
         init.2.1 + ((l.filter (fun a =>
            decide (rule.min_commission_threshold ≤
              ((accountMonthSales salesData a.id m y).map SalesData.gross_commission).sum))).map
            (fun a => ((accountMonthSales salesData a.id m y).map
              SalesData.gross_commission).sum)).sum,
         init.2.2 + (l.filter (fun a =>
            decide (rule.min_commission_threshold ≤
              ((accountMonthSales salesData a.id m y).map
                SalesData.gross_commission).sum))).length) := by
  intro l
  induction l with
  | nil => intro init; simp
  | cons a l ih =>
    intro init
    rw [List.foldl_cons, ih]
    by_cases hq : rule.min_commission_threshold ≤
        ((accountMonthSales salesData a.id m y).map SalesData.gross_commission).sum
    · simp [overviewStep, hq, List.filter_cons, Prod.ext_iff]
      refine ⟨by ring, by ring, by omega⟩
    · simp [overviewStep, hq, List.filter_cons]

/-- C4: monthly incentive payouts are computed from month-scoped,
threshold-qualified data.  For every selected month and year, each user against
overview row aggregates only sales rows of that month and year belonging to
the accounts of that user, and the revenue and commission contribute to
the totals (and the qualifying count) exactly when its summed
`gross_commission` for the month is at least the active rule
`min_commission_threshold`. -/
theorem userAccountsOverview_spec (users : List User) (accounts : List Account)
    (salesData : List SalesData) (incentiveRules : List IncentiveRule)
    (rule : IncentiveRule) (m : Nat) (y : Int)
    (hrule : activeRule incentiveRules = some rule) (u : User) (hu : u ∈ users) :
    ∃ row ∈ userAccountsOverview users accounts salesData incentiveRules m y,
      row.user_id = u.id ∧ row.user_name = u.name ∧
      row.total_accounts = (accounts.filter (fun a => a.user_id == some u.id)).length ∧
      row.qualifying_accounts = ((accounts.filter (fun a => a.user_id == some u.id)).filter
        (fun a => decide (rule.min_commission_threshold ≤
          ((accountMonthSales salesData a.id m y).map SalesData.gross_commission).sum))).length ∧
      row.total_revenue = (((accounts.filter (fun a => a.user_id == some u.id)).filter
        (fun a => decide (rule.min_commission_threshold ≤
          ((accountMonthSales salesData a.id m y).map SalesData.gross_commission).sum))).map
        (fun a => ((accountMonthSales salesData a.id m y).map SalesData.total_purchases).sum)).sum ∧
      row.total_commission = (((accounts.filter (fun a => a.user_id == some u.id)).filter
        (fun a => decide (rule.min_commission_threshold ≤
          ((accountMonthSales salesData a.id m y).map SalesData.gross_commission).sum))).map
        (fun a => ((accountMonthSales salesData a.id m y).map SalesData.gross_commission).sum)).sum := by
  refine ⟨userOverviewRow accounts salesData rule m y u, ?_, ?_, ?_, ?_, ?_, ?_, ?_⟩
  · simp only [userAccountsOverview, hrule]
    exact (List.perm_insertionSort overviewRel _).mem_iff.mpr
      (List.mem_map_of_mem (userOverviewRow accounts salesData rule m y) hu)
  · rfl
  · rfl
  · rfl
  · simp [userOverviewRow, overviewStep_foldl]
  · simp [userOverviewRow, overviewStep_foldl]
  · simp [userOverviewRow, overviewStep_foldl]

/-- Witness for C4 at a concrete input: one user owning account `"a1"`, one
qualifying sales row in May 2024, and an active rule with commission
threshold `10`. -/
theorem userAccountsOverview_spec_witness :
    (activeRule [⟨0, 10, 0, 100, true, [⟨1000, 5⟩]⟩] =
      some ⟨0, 10, 0, 100, true, [⟨1000, 5⟩]⟩) ∧
    ((⟨"u1", "N", Role.user, ["a1"]⟩ : User) ∈ [(⟨"u1", "N", Role.user, ["a1"]⟩ : User)]) ∧
    ∃ row ∈ userAccountsOverview [⟨"u1", "N", Role.user, ["a1"]⟩]
        [⟨"a1", some "u1"⟩] [⟨"a1", ⟨2024, 5, 3⟩, 10, 2, 50, 1000, 4, 1⟩]
        [⟨0, 10, 0, 100, true, [⟨1000, 5⟩]⟩] 5 2024,
      row.user_id = "u1" ∧ row.user_name = "N" ∧
      row.total_accounts = (([⟨"a1", some "u1"⟩] : List Account).filter
        (fun a => a.user_id == some "u1")).length ∧
      row.qualifying_accounts = ((([⟨"a1", some "u1"⟩] : List Account).filter
        (fun a => a.user_id == some "u1")).filter
        (fun a => decide ((10 : ℚ) ≤
          ((accountMonthSales [⟨"a1", ⟨2024, 5, 3⟩, 10, 2, 50, 1000, 4, 1⟩] a.id 5 2024).map
            SalesData.gross_commission).sum))).length ∧
      row.total_revenue = (((([⟨"a1", some "u1"⟩] : List Account).filter
        (fun a => a.user_id == some "u1")).filter
        (fun a => decide ((10 : ℚ) ≤
          ((accountMonthSales [⟨"a1", ⟨2024, 5, 3⟩, 10, 2, 50, 1000, 4, 1⟩] a.id 5 2024).map
            SalesData.gross_commission).sum))).map
        (fun a => ((accountMonthSales [⟨"a1", ⟨2024, 5, 3⟩, 10, 2, 50, 1000, 4, 1⟩] a.id 5 2024).map
          SalesData.total_purchases).sum)).sum ∧
      row.total_commission = (((([⟨"a1", some "u1"⟩] : List Account).filter
        (fun a => a.user_id == some "u1")).filter
        (fun a => decide ((10 : ℚ) ≤
          ((accountMonthSales [⟨"a1", ⟨2024, 5, 3⟩, 10, 2, 50, 1000, 4, 1⟩] a.id 5 2024).map
            SalesData.gross_commission).sum))).map
        (fun a => ((accountMonthSales [⟨"a1", ⟨2024, 5, 3⟩, 10, 2, 50, 1000, 4, 1⟩] a.id 5 2024).map
          SalesData.gross_commission).sum)).sum :=
  ⟨rfl, List.mem_cons_self _ _,
    userAccountsOverview_spec [⟨"u1", "N", Role.user, ["a1"]⟩] [⟨"a1", some "u1"⟩]
      [⟨"a1", ⟨2024, 5, 3⟩, 10, 2, 50, 1000, 4, 1⟩] [⟨0, 10, 0, 100, true, [⟨1000, 5⟩]⟩]
      ⟨0, 10, 0, 100, true, [⟨1000, 5⟩]⟩ 5 2024 rfl ⟨"u1", "N", Role.user, ["a1"]⟩
      (List.mem_cons_self _ _)⟩

/-- C7: the CSV export reproduces the on-screen aggregates.  For every
filtered sales dataset the CSV rows are exactly the displayed table rows:
one row per group of `accumulatedData`, in the same order, with equal numeric
fields (`data_count`, clicks, orders, `gross_commission`, `total_purchases`,
`products_sold`, and the division-guarded commission and conversion
percentages). -/
theorem exportToCSV_matches_table (filteredData : List SalesData) :
    exportToCSVRows filteredData = tableRows filteredData ∧
    (exportToCSVRows filteredData).length = (accumulatedData filteredData).length ∧
    ∀ g ∈ accumulatedData filteredData, csvRow g = tableRow g := by
  refine ⟨rfl, by simp [exportToCSVRows], fun g _ => rfl⟩

/-- Witness for C7 on a concrete dataset of two rows over two accounts. -/
theorem exportToCSV_matches_table_witness :
    exportToCSVRows [⟨"a1", ⟨2024, 5, 3⟩, 10, 2, 50, 1000, 4, 1⟩,
        ⟨"a2", ⟨2024, 5, 4⟩, 0, 0, 60, 0, 1, 0⟩] =
      tableRows [⟨"a1", ⟨2024, 5, 3⟩, 10, 2, 50, 1000, 4, 1⟩,
        ⟨"a2", ⟨2024, 5, 4⟩, 0, 0, 60, 0, 1, 0⟩] ∧
    (exportToCSVRows [⟨"a1", ⟨2024, 5, 3⟩, 10, 2, 50, 1000, 4, 1⟩,
        ⟨"a2", ⟨2024, 5, 4⟩, 0, 0, 60, 0, 1, 0⟩]).length =
      (accumulatedData [⟨"a1", ⟨2024, 5, 3⟩, 10, 2, 50, 1000, 4, 1⟩,
        ⟨"a2", ⟨2024, 5, 4⟩, 0, 0, 60, 0, 1, 0⟩]).length ∧
    ∀ g ∈ accumulatedData [⟨"a1", ⟨2024, 5, 3⟩, 10, 2, 50, 1000, 4, 1⟩,
        ⟨"a2", ⟨2024, 5, 4⟩, 0, 0, 60, 0, 1, 0⟩], csvRow g = tableRow g :=
  exportToCSV_matches_table [⟨"a1", ⟨2024, 5, 3⟩, 10, 2, 50, 1000, 4, 1⟩,
    ⟨"a2", ⟨2024, 5, 4⟩, 0, 0, 60, 0, 1, 0⟩]

/-- C9: all derived rate computations are division-guarded.  The average
commission rate and conversion rate of `reportMetrics` are `0` when their
denominators (total purchases sum, total clicks sum) are `0`; the per-group
commission and conversion percentages of the table and CSV rows are `0` when
the group denominator is `0`; and the average commission rate of an overview row
is `0` when its total revenue is `0` — so no division by zero is ever
evaluated. -/
theorem divisionGuards_spec (filteredData : List SalesData) (users : List User)
    (accounts : List Account) (salesData : List SalesData)
    (incentiveRules : List IncentiveRule) (m : Nat) (y : Int) :
    ((filteredData.map SalesData.total_purchases).sum = 0 →
      (reportMetrics filteredData).avgCommissionRate = 0) ∧
    ((filteredData.map SalesData.clicks).sum = 0 →
      (reportMetrics filteredData).conversionRate = 0) ∧
    (∀ g ∈ accumulatedData filteredData,
      (g.total_purchases = 0 →
        (tableRow g).commissionRate = 0 ∧ (csvRow g).commissionRate = 0) ∧
      (g.clicks = 0 → (tableRow g).convRate = 0 ∧ (csvRow g).convRate = 0)) ∧
    (∀ row ∈ userAccountsOverview users accounts salesData incentiveRules m y,
      row.total_revenue = 0 → row.avg_commission_rate = 0) := by
  refine ⟨?_, ?_, ?_, ?_⟩
  · intro h
    simp [reportMetrics, h]
  · intro h
    simp [reportMetrics, h]
  · intro g _
    constructor
    · intro h
      exact ⟨by simp [tableRow, h], by simp [csvRow, h]⟩
    · intro h
      exact ⟨by simp [tableRow, h], by simp [csvRow, h]⟩
  · intro row hrow hrev
    simp only [userAccountsOverview] at hrow
    cases hr : activeRule incentiveRules with
    | none =>
      rw [hr] at hrow
      simp at hrow
    | some rule =>
      rw [hr] at hrow
      obtain ⟨user, _, hrw⟩ :=
        List.mem_map.mp ((List.perm_insertionSort overviewRel _).mem_iff.mp hrow)
      rw [← hrw] at hrev ⊢
      simp only [userOverviewRow] at hrev ⊢
      rw [hrev, if_neg (lt_irrefl 0)]

/-- Witness for C9 at a concrete input: a single sales row with zero clicks
and zero purchases, and an empty overview. -/
theorem divisionGuards_spec_witness :
    (([⟨"a1", ⟨2024, 5, 3⟩, 0, 0, 5, 0, 0, 0⟩] : List SalesData).map
        SalesData.total_purchases).sum = 0 ∧
    (([⟨"a1", ⟨2024, 5, 3⟩, 0, 0, 5, 0, 0, 0⟩] : List SalesData).map
        SalesData.clicks).sum = 0 ∧
    ((([⟨"a1", ⟨2024, 5, 3⟩, 0, 0, 5, 0, 0, 0⟩] : List SalesData).map
        SalesData.total_purchases).sum = 0 →
      (reportMetrics [⟨"a1", ⟨2024, 5, 3⟩, 0, 0, 5, 0, 0, 0⟩]).avgCommissionRate = 0) ∧
    ((([⟨"a1", ⟨2024, 5, 3⟩, 0, 0, 5, 0, 0, 0⟩] : List SalesData).map
        SalesData.clicks).sum = 0 →
      (reportMetrics [⟨"a1", ⟨2024, 5, 3⟩, 0, 0, 5, 0, 0, 0⟩]).conversionRate = 0) ∧
    (∀ g ∈ accumulatedData [⟨"a1", ⟨2024, 5, 3⟩, 0, 0, 5, 0, 0, 0⟩],
      (g.total_purchases = 0 →
        (tableRow g).commissionRate = 0 ∧ (csvRow g).commissionRate = 0) ∧
      (g.clicks = 0 → (tableRow g).convRate = 0 ∧ (csvRow g).convRate = 0)) ∧
    (∀ row ∈ userAccountsOverview [] [] [] [] 5 2024,
      row.total_revenue = 0 → row.avg_commission_rate = 0) := by
  have h := divisionGuards_spec [⟨"a1", ⟨2024, 5, 3⟩, 0, 0, 5, 0, 0, 0⟩] [] [] [] [] 5 2024
  exact ⟨by simp, by simp, h.1, h.2.1, h.2.2.1, h.2.2.2⟩

/-- C10: file ordering invariant.  In the output of `sortedFiles` every
pinned file precedes every unpinned file, within each group files appear in
non-increasing `updated_at` order, and the output is a permutation of the
filtered input. -/
theorem sortedFiles_spec (filteredFiles : List FileData) :
    (sortedFiles filteredFiles).Pairwise
      (fun a b => (b.is_pinned = true → a.is_pinned = true) ∧
        (a.is_pinned = b.is_pinned → b.updated_at ≤ a.updated_at)) ∧
    (sortedFiles filteredFiles).Perm filteredFiles := by
  constructor
  · refine List.Pairwise.imp ?_ (List.sorted_insertionSort fileRel filteredFiles)
    intro a b hab
    cases ha : a.is_pinned <;> cases hb : b.is_pinned <;>
      simp [fileRel, fileLE, ha, hb] at hab ⊢ <;> omega
  · exact List.perm_insertionSort fileRel filteredFiles

/-- Witness for C10 on a concrete three-file list. -/
theorem sortedFiles_spec_witness :
    (sortedFiles [⟨"f1", false, 30⟩, ⟨"f2", true, 10⟩, ⟨"f3", true, 20⟩]).Pairwise
      (fun a b => (b.is_pinned = true → a.is_pinned = true) ∧
        (a.is_pinned = b.is_pinned → b.updated_at ≤ a.updated_at)) ∧
    (sortedFiles [⟨"f1", false, 30⟩, ⟨"f2", true, 10⟩, ⟨"f3", true, 20⟩]).Perm
      [⟨"f1", false, 30⟩, ⟨"f2", true, 10⟩, ⟨"f3", true, 20⟩] :=
  sortedFiles_spec [⟨"f1", false, 30⟩, ⟨"f2", true, 10⟩, ⟨"f3", true, 20⟩]

/-- C5: every data operation of the `useSupabase` hook catches backend errors
at the call site and surfaces them as a message string.  For every operation,
whenever the backend call that determines its result reports an error, the
operation sets the error state to a string message and returns its neutral
fallback value (empty list, `null`, or `false`) instead of propagating the
exception. -/
theorem useSupabase_error_spec (e : JsError)
    (dCat : Option (List Category)) (dCat1 : Option Category)
    (dAcc : Option (List Account)) (dAcc1 : Option Account)
    (dSales : Option (List SalesData))
    (dUsers : Option (List User)) (dUser1 : Option User)
    (dRules : Option (List RuleRow)) (dTiers : Option (List TierRow))
    (dRule1 : RuleRow) (t : IncentiveTier) (ruleTiers : List IncentiveTier)
    (store : IncentiveStore) (id : String) (updates : RuleUpdatePayload)
    (ds di df : Option JsError) (dFiles : Option (List FileData))
    (dFile1 : Option FileData) :
    fetchCategories ⟨dCat, some e⟩ =
      ([], some (jsErrorMessage e "Failed to fetch categories")) ∧
    addCategory ⟨dCat1, some e⟩ =
      (none, some (jsErrorMessage e "Failed to add category")) ∧
    updateCategory ⟨dCat1, some e⟩ =
      (none, some (jsErrorMessage e "Failed to update category")) ∧
    deleteCategory (some e) =
      (false, some (jsErrorMessage e "Failed to delete category")) ∧
    fetchAccounts ⟨dAcc, some e⟩ =
      ([], some (jsErrorMessage e "Failed to fetch accounts")) ∧
    addAccount ⟨dAcc1, some e⟩ =
      (none, some (jsErrorMessage e "Failed to add account")) ∧
    updateAccount ⟨dAcc1, some e⟩ =
      (none, some (jsErrorMessage e "Failed to update account")) ∧
    deleteAccount (some e) =
      (false, some (jsErrorMessage e "Failed to delete account")) ∧
    fetchSalesData ⟨dSales, some e⟩ =
      ([], some (jsErrorMessage e "Failed to fetch sales data")) ∧
    addSalesData ⟨dSales, some e⟩ =
      ([], some (jsErrorMessage e "Failed to add sales data")) ∧
    deleteSalesData (some e) =
      (false, some (jsErrorMessage e "Failed to delete sales data")) ∧
    fetchUsers ⟨dUsers, some e⟩ =
      ([], some (jsErrorMessage e "Failed to fetch users")) ∧
    addUser ⟨dUser1, some e⟩ =
      (none, some (jsErrorMessage e "Failed to add user")) ∧
    updateUser ⟨dUser1, some e⟩ =
      (none, some (jsErrorMessage e "Failed to update user")) ∧
    deleteUser (some e) =
      (false, some (jsErrorMessage e "Failed to delete user")) ∧
    fetchIncentiveRules ⟨dRules, some e⟩ ⟨dTiers, df⟩ =
      ([], some (jsErrorMessage e "Failed to fetch incentive rules")) ∧
    fetchIncentiveRules ⟨dRules, none⟩ ⟨dTiers, some e⟩ =
      ([], some (jsErrorMessage e "Failed to fetch incentive rules")) ∧
    addIncentiveRule ruleTiers ⟨some dRule1, some e⟩ ⟨dTiers, df⟩ =
      (none, some (jsErrorMessage e "Failed to add incentive rule")) ∧
    addIncentiveRule (t :: ruleTiers) ⟨some dRule1, none⟩ ⟨dTiers, some e⟩ =
      (none, some (jsErrorMessage e "Failed to add incentive rule")) ∧
    (updateIncentiveRule store id updates ⟨some e, ds, di, df⟩).2 =
      (none, some (jsErrorMessage e "Failed to update incentive rule")) ∧
    (updates.tiers = some (t :: ruleTiers) →
      (updateIncentiveRule store id updates ⟨none, ds, some e, df⟩).2 =
        (none, some (jsErrorMessage e "Failed to update incentive rule"))) ∧
    deleteIncentiveRule (some e) =
      (false, some (jsErrorMessage e "Failed to delete incentive rule")) ∧
    updateProfile ⟨dUser1, some e⟩ =
      (none, some (jsErrorMessage e "Failed to update profile")) ∧
    fetchFiles ⟨dFiles, some e⟩ =
      ([], some (jsErrorMessage e "Failed to fetch files")) ∧
    addFile ⟨dFile1, some e⟩ =
      (none, some (jsErrorMessage e "Failed to add file")) ∧
    updateFile ⟨dFile1, some e⟩ =
      (none, some (jsErrorMessage e "Failed to update file")) ∧
    deleteFile (some e) =
      (false, some (jsErrorMessage e "Failed to delete file")) := by
  refine ⟨rfl, rfl, rfl, rfl, rfl, rfl, rfl, rfl, rfl, rfl, rfl, rfl, rfl, rfl, rfl,
    rfl, rfl, rfl, ?_, rfl, ?_, rfl, rfl, rfl, rfl, rfl, rfl⟩
  · simp [addIncentiveRule]
  · intro ht
    cases ds with
    | none => simp [updateIncentiveRule, ht]
    | some d => simp [updateIncentiveRule, ht]

/-- Witness for C5 at a concrete input: every operation on the error
`⟨true, "boom"⟩` with empty data. -/
theorem useSupabase_error_spec_witness :
    fetchCategories ⟨none, some ⟨true, "boom"⟩⟩ =
      ([], some (jsErrorMessage ⟨true, "boom"⟩ "Failed to fetch categories")) ∧
    addCategory ⟨none, some ⟨true, "boom"⟩⟩ =
      (none, some (jsErrorMessage ⟨true, "boom"⟩ "Failed to add category")) ∧
    updateCategory ⟨none, some ⟨true, "boom"⟩⟩ =
      (none, some (jsErrorMessage ⟨true, "boom"⟩ "Failed to update category")) ∧
    deleteCategory (some ⟨true, "boom"⟩) =
      (false, some (jsErrorMessage ⟨true, "boom"⟩ "Failed to delete category")) ∧
    fetchAccounts ⟨none, some ⟨true, "boom"⟩⟩ =
      ([], some (jsErrorMessage ⟨true, "boom"⟩ "Failed to fetch accounts")) ∧
    addAccount ⟨none, some ⟨true, "boom"⟩⟩ =
      (none, some (jsErrorMessage ⟨true, "boom"⟩ "Failed to add account")) ∧
    updateAccount ⟨none, some ⟨true, "boom"⟩⟩ =
      (none, some (jsErrorMessage ⟨true, "boom"⟩ "Failed to update account")) ∧
    deleteAccount (some ⟨true, "boom"⟩) =
      (false, some (jsErrorMessage ⟨true, "boom"⟩ "Failed to delete account")) ∧
    fetchSalesData ⟨none, some ⟨true, "boom"⟩⟩ =
      ([], some (jsErrorMessage ⟨true, "boom"⟩ "Failed to fetch sales data")) ∧
    addSalesData ⟨none, some ⟨true, "boom"⟩⟩ =
      ([], some (jsErrorMessage ⟨true, "boom"⟩ "Failed to add sales data")) ∧
    deleteSalesData (some ⟨true, "boom"⟩) =
      (false, some (jsErrorMessage ⟨true, "boom"⟩ "Failed to delete sales data")) ∧
    fetchUsers ⟨none, some ⟨true, "boom"⟩⟩ =
      ([], some (jsErrorMessage ⟨true, "boom"⟩ "Failed to fetch users")) ∧
    addUser ⟨none, some ⟨true, "boom"⟩⟩ =
      (none, some (jsErrorMessage ⟨true, "boom"⟩ "Failed to add user")) ∧
    updateUser ⟨none, some ⟨true, "boom"⟩⟩ =
      (none, some (jsErrorMessage ⟨true, "boom"⟩ "Failed to update user")) ∧
    deleteUser (some ⟨true, "boom"⟩) =
      (false, some (jsErrorMessage ⟨true, "boom"⟩ "Failed to delete user")) ∧
    fetchIncentiveRules ⟨none, some ⟨true, "boom"⟩⟩ ⟨none, none⟩ =
      ([], some (jsErrorMessage ⟨true, "boom"⟩ "Failed to fetch incentive rules")) ∧
    fetchIncentiveRules ⟨none, none⟩ ⟨none, some ⟨true, "boom"⟩⟩ =
      ([], some (jsErrorMessage ⟨true, "boom"⟩ "Failed to fetch incentive rules")) ∧
    addIncentiveRule [] ⟨some ⟨"r1", 0, 0, 0, 100, true⟩, some ⟨true, "boom"⟩⟩ ⟨none, none⟩ =
      (none, some (jsErrorMessage ⟨true, "boom"⟩ "Failed to add incentive rule")) ∧
    addIncentiveRule [⟨1000, 5⟩] ⟨some ⟨"r1", 0, 0, 0, 100, true⟩, none⟩
        ⟨none, some ⟨true, "boom"⟩⟩ =
      (none, some (jsErrorMessage ⟨true, "boom"⟩ "Failed to add incentive rule")) ∧
    (updateIncentiveRule ⟨[], []⟩ "r1" ⟨0, 0, 0, 100, true, none⟩
        ⟨some ⟨true, "boom"⟩, none, none, none⟩).2 =
      (none, some (jsErrorMessage ⟨true, "boom"⟩ "Failed to update incentive rule")) ∧
    ((⟨0, 0, 0, 100, true, some [⟨1000, 5⟩]⟩ : RuleUpdatePayload).tiers =
        some ([⟨1000, 5⟩] : List IncentiveTier) →
      (updateIncentiveRule ⟨[], []⟩ "r1" ⟨0, 0, 0, 100, true, some [⟨1000, 5⟩]⟩
          ⟨none, none, some ⟨true, "boom"⟩, none⟩).2 =
        (none, some (jsErrorMessage ⟨true, "boom"⟩ "Failed to update incentive rule"))) ∧
    deleteIncentiveRule (some ⟨true, "boom"⟩) =
      (false, some (jsErrorMessage ⟨true, "boom"⟩ "Failed to delete incentive rule")) ∧
    updateProfile ⟨none, some ⟨true, "boom"⟩⟩ =
      (none, some (jsErrorMessage ⟨true, "boom"⟩ "Failed to update profile")) ∧
    fetchFiles ⟨none, some ⟨true, "boom"⟩⟩ =
      ([], some (jsErrorMessage ⟨true, "boom"⟩ "Failed to fetch files")) ∧
    addFile ⟨none, some ⟨true, "boom"⟩⟩ =
      (none, some (jsErrorMessage ⟨true, "boom"⟩ "Failed to add file")) ∧
    updateFile ⟨none, some ⟨true, "boom"⟩⟩ =
      (none, some (jsErrorMessage ⟨true, "boom"⟩ "Failed to update file")) ∧
    deleteFile (some ⟨true, "boom"⟩) =
      (false, some (jsErrorMessage ⟨true, "boom"⟩ "Failed to delete file")) :=
  useSupabase_error_spec ⟨true, "boom"⟩ none none none none none none none none none
    ⟨"r1", 0, 0, 0, 100, true⟩ ⟨1000, 5⟩ [] ⟨[], []⟩ "r1" ⟨0, 0, 0, 100, true, some [⟨1000, 5⟩]⟩
    none none none none none

/-- C6 counterexample: starting from a store holding rule `"r1"` with one
tier row, an update whose rule write and tier delete succeed but whose tier
insert fails returns `null` with the error set — yet the rule row keeps the
new field values and the tier rows are gone, so the store is not left as it
was. -/
theorem updateIncentiveRule_counterexample :
    updateIncentiveRule ⟨[⟨"r1", 0, 10, 0, 100, true⟩], [⟨"r1", 1000, 5⟩]⟩ "r1"
        ⟨500, 20, 1, 90, false, some [⟨2000, 7⟩]⟩ ⟨none, none, some ⟨true, "boom"⟩, none⟩ =
      (⟨[⟨"r1", 500, 20, 1, 90, false⟩], []⟩, none, some "boom") ∧
    (⟨[⟨"r1", 500, 20, 1, 90, false⟩], []⟩ : IncentiveStore) ≠
      ⟨[⟨"r1", 0, 10, 0, 100, true⟩], [⟨"r1", 1000, 5⟩]⟩ := by
  constructor
  · rfl
  · simp

/-- C6 amended: `updateIncentiveRule` leaves the stored rule row and tier
rows unchanged when the failure happens at the initial rule-update call; but
when the rule update and tier delete succeed and the tier insert then fails,
the call still returns `null` with the error set while the rule row keeps the
new values and the existing tier rows have already been deleted. -/
theorem updateIncentiveRule_failure_behaviour (store : IncentiveStore)
    (id : String) (updates : RuleUpdatePayload) (s : UpdateScript) (e : JsError)
    (newTiers : List IncentiveTier) :
    (s.ruleErr = some e →
      updateIncentiveRule store id updates s =
        (store, none, some (jsErrorMessage e "Failed to update incentive rule"))) ∧
    (s.ruleErr = none → s.deleteErr = none → s.insertErr = some e →
      updates.tiers = some newTiers → newTiers ≠ [] →
      updateIncentiveRule store id updates s =
        (⟨store.rules.map (fun r => if r.id == id then applyPayload updates r else r),
          store.tiers.filter (fun t => !(t.rule_id == id))⟩,
         none, some (jsErrorMessage e "Failed to update incentive rule"))) := by
  constructor
  · intro h
    simp [updateIncentiveRule, h]
  · intro h1 h2 h3 h4 h5
    simp [updateIncentiveRule, h1, h2, h3, h4, List.length_pos.mpr h5]

/-- Witness for the amended C6 at a concrete input. -/
theorem updateIncentiveRule_failure_behaviour_witness :
    ((⟨some ⟨true, "x"⟩, none, none, none⟩ : UpdateScript).ruleErr = some ⟨true, "x"⟩ →
      updateIncentiveRule ⟨[], []⟩ "r1" ⟨0, 0, 0, 100, true, some [⟨1, 1⟩]⟩
          ⟨some ⟨true, "x"⟩, none, none, none⟩ =
        (⟨[], []⟩, none,
          some (jsErrorMessage ⟨true, "x"⟩ "Failed to update incentive rule"))) ∧
    ((⟨some ⟨true, "x"⟩, none, none, none⟩ : UpdateScript).ruleErr = none →
      (⟨some ⟨true, "x"⟩, none, none, none⟩ : UpdateScript).deleteErr = none →
      (⟨some ⟨true, "x"⟩, none, none, none⟩ : UpdateScript).insertErr = some ⟨true, "x"⟩ →
      (⟨0, 0, 0, 100, true, some [⟨1, 1⟩]⟩ : RuleUpdatePayload).tiers =
        some ([⟨1, 1⟩] : List IncentiveTier) →
      ([⟨1, 1⟩] : List IncentiveTier) ≠ [] →
      updateIncentiveRule ⟨[], []⟩ "r1" ⟨0, 0, 0, 100, true, some [⟨1, 1⟩]⟩
          ⟨some ⟨true, "x"⟩, none, none, none⟩ =
        (⟨(([] : List RuleRow)).map (fun r =>
            if r.id == "r1" then applyPayload ⟨0, 0, 0, 100, true, some [⟨1, 1⟩]⟩ r else r),
          (([] : List TierRow)).filter (fun t => !(t.rule_id == "r1"))⟩,
         none, some (jsErrorMessage ⟨true, "x"⟩ "Failed to update incentive rule"))) :=
  updateIncentiveRule_failure_behaviour ⟨[], []⟩ "r1" ⟨0, 0, 0, 100, true, some [⟨1, 1⟩]⟩
    ⟨some ⟨true, "x"⟩, none, none, none⟩ ⟨true, "x"⟩ [⟨1, 1⟩]
